import Mathlib

/-!
Shallow embedding of the Merchant Center monitoring service (the `gmc`
repository) and proofs about its Check-and-Alert Engine.

The definitions below are translated from the Python sources:
`app/models.py`, `app/config.py`, `app/merchant_api.py`,
`app/alert_service.py`, `app/alert_service_dev.py`, `app/database.py`
and `app/main.py`.  Machine integers are modelled as `Int` (Python ints
are unbounded), fallible calls as `Except String`, and the append-only
snapshot store as a chronological `List`.
-/

namespace GMC

/-- Alert-related application settings (`app/config.py`, class `Settings`). -/
structure Settings where
  alert_threshold_abs : Int
  alert_threshold_delta : Int
  alert_country : String
  alert_reporting_context : String
  deriving DecidableEq

/-- The defaults declared in `app/config.py`. -/
def defaultSettings : Settings :=
  { alert_threshold_abs := 25
    alert_threshold_delta := 10
    alert_country := "PL"
    alert_reporting_context := "SHOPPING_ADS" }

/-- `ProductStatusCounts` from `app/models.py`: the seven status counters. -/
structure ProductStatusCounts where
  approved : Int
  pending : Int
  disapproved : Int
  limited : Int
  suspended : Int
  under_review : Int
  processing : Int
  deriving DecidableEq

/-- The all-zero `ProductStatusCounts()` pydantic default. -/
def zeroCounts : ProductStatusCounts := ⟨0, 0, 0, 0, 0, 0, 0⟩

/-- `IssueCode` from `app/models.py`. -/
structure IssueCode where
  code : String
  description : String
  count : Int
  deriving DecidableEq

/-- `ProductStatusSnapshot` from `app/models.py`.  Timestamps are modelled
as abstract `Nat` instants. -/
structure ProductStatusSnapshot where
  timestamp : Nat
  country : String
  reporting_context : String
  totals : ProductStatusCounts
  delta_disapproved : Int
  alert_sent : Bool
  top_issues : List IssueCode
  deriving DecidableEq

/-- `AlertService._should_send_alert` (`app/alert_service.py`, lines 92-109).
`AlertServiceDev._should_send_alert` has the identical body. -/
def should_send_alert (s : Settings) (totals : ProductStatusCounts)
    (delta_disapproved : Int) : Bool :=
  let problematic_total := totals.disapproved + totals.suspended + totals.limited
  if problematic_total > s.alert_threshold_abs then true
  else if delta_disapproved ≥ s.alert_threshold_delta then true
  else false

/-- One nested issue-detail entry of a raw API report item
(`merchant_api.py`, `get_top_issue_codes`): the fields read with
`detail.get("code", "")`, `detail.get("description", "")`,
`detail.get("count", 0)`. -/
structure IssueDetail where
  code : String
  description : String
  count : Int
  deriving DecidableEq

/-- One raw API report item (`api_response["items"][i]`): the fields read
with `item.get("status", "")`, `item.get("count", 0)`,
`item.get("issueDetails", [])`. -/
structure APIItem where
  status : String
  count : Int
  issueDetails : List IssueDetail
  deriving DecidableEq

/-- The membership test `item.get("status", "").upper() in
["DISAPPROVED", "LIMITED", "SUSPENDED"]` from `get_top_issue_codes`. -/
def negativeStatus (item : APIItem) : Bool :=
  item.status.toUpper == "DISAPPROVED" || item.status.toUpper == "LIMITED" ||
    item.status.toUpper == "SUSPENDED"

/-- The guard `if code and count > 0` from `get_top_issue_codes`
(Python truthiness of a string is non-emptiness). -/
def goodDetail (d : IssueDetail) : Bool :=
  d.code != "" && decide (0 < d.count)

/-- Construction of one `IssueCode` from a qualifying detail entry. -/
def mkIssue (d : IssueDetail) : IssueCode :=
  { code := d.code, description := d.description, count := d.count }

/-- One iteration of the accumulation loop in
`MerchantAPIService.parse_product_status_counts` (`merchant_api.py`,
lines 118-135). -/
def parseStep (counts : ProductStatusCounts) (item : APIItem) : ProductStatusCounts :=
  let status := item.status.toUpper
  let count := item.count
  if status = "APPROVED" then { counts with approved := counts.approved + count }
  else if status = "PENDING" then { counts with pending := counts.pending + count }
  else if status = "DISAPPROVED" then { counts with disapproved := counts.disapproved + count }
  else if status = "LIMITED" then { counts with limited := counts.limited + count }
  else if status = "SUSPENDED" then { counts with suspended := counts.suspended + count }
  else if status = "UNDER_REVIEW" then { counts with under_review := counts.under_review + count }
  else if status = "PROCESSING" then { counts with processing := counts.processing + count }
  else counts

/-- `MerchantAPIService.parse_product_status_counts` (`merchant_api.py`,
lines 113-138), applied to `api_response.get("items", [])`. -/
def parse_product_status_counts (items : List APIItem) : ProductStatusCounts :=
  items.foldl parseStep zeroCounts

/-- The issue-collection loop of `MerchantAPIService.get_top_issue_codes`
(`merchant_api.py`, lines 142-158): nested loops appending to `issues`. -/
def collect_issues (items : List APIItem) : List IssueCode :=
  items.foldl
    (fun issues item =>
      if negativeStatus item then
        item.issueDetails.foldl
          (fun acc d => if goodDetail d then acc ++ [mkIssue d] else acc) issues
      else issues)
    []

/-- The comparison key of `issues.sort(key=lambda x: x.count, reverse=True)`:
`a` may come before `b` when `b.count ≤ a.count` (descending). -/
def issueOrd (a b : IssueCode) : Prop := b.count ≤ a.count

instance : DecidableRel issueOrd := fun a b => Int.decLe b.count a.count

instance : IsTotal IssueCode issueOrd := ⟨fun a b => Int.le_total b.count a.count⟩

instance : IsTrans IssueCode issueOrd := ⟨fun _ _ _ hab hbc => le_trans hbc hab⟩

/-- `MerchantAPIService.get_top_issue_codes` (`merchant_api.py`, lines
140-162): collect qualifying issue entries, stable-sort by count descending
(Python `list.sort` is stable; `List.insertionSort` with `issueOrd` is the
stable descending sort), truncate to `limit` (the Python default is 5). -/
def get_top_issue_codes (items : List APIItem) (limit : Nat) : List IssueCode :=
  (List.insertionSort issueOrd (collect_issues items)).take limit

/-- Spec-side reformulation of the issue-collection rule, following the
words of spec §4.1: only items in a negative status contribute; each
qualifying nested detail becomes one Issue; no deduplication. Proved equal
to the loop-based `collect_issues` taken from the source. -/
def collect_issues_spec (items : List APIItem) : List IssueCode :=
  (items.filter negativeStatus).flatMap
    fun item => (item.issueDetails.filter goodDetail).map mkIssue

/-- The total count accumulated into one `StatusCounts` field: the sum of
the counts of the items whose upper-cased status equals `s`. -/
def sumCountsFor (s : String) (items : List APIItem) : Int :=
  (((items.filter fun i => i.status.toUpper == s).map fun i => i.count)).sum

/-- The data produced by the fetch-and-parse step of
`AlertService.run_check` (`alert_service.py`, lines 25-32): the parsed
current totals and the top issue list. -/
structure FetchData where
  totals : ProductStatusCounts
  top_issues : List IssueCode
  deriving DecidableEq

/-- The observable outcome of one successful `run_check`: the snapshot
passed to `db_service.save_snapshot` and how many times
`email_service.send_alert_email` was invoked. -/
structure RunOutcome where
  snapshot : ProductStatusSnapshot
  emailCalls : Nat
  deriving DecidableEq

/-- The delta computation of `AlertService.run_check` (`alert_service.py`,
lines 37-40): `delta_disapproved = 0`, overwritten with
`current - previous` when a previous snapshot exists. -/
def computeDelta (current : ProductStatusCounts) :
    Option ProductStatusSnapshot → Int
  | none => 0
  | some prev => current.disapproved - prev.totals.disapproved

/-- `AlertService.run_check` (`alert_service.py`, lines 19-90).  The fetch
step is modelled by its result (`Except.error` when
`get_aggregate_product_statuses` raises, in which case the `except` clause
re-raises); the Notifier by the boolean `emailSuccess` it would report;
`now` is the `datetime.utcnow()` instant. -/
def run_check (s : Settings) (now : Nat) (fetched : Except String FetchData)
    (prev : Option ProductStatusSnapshot) (emailSuccess : Bool) :
    Except String RunOutcome :=
  match fetched with
  | .error e => .error e
  | .ok fd =>
      let delta_disapproved := computeDelta fd.totals prev
      let alertDecision := should_send_alert s fd.totals delta_disapproved
      let emailCalls := if alertDecision then 1 else 0
      let alert_sent := if alertDecision && !emailSuccess then false else alertDecision
      let snapshot : ProductStatusSnapshot :=
        { timestamp := now
          country := s.alert_country
          reporting_context := s.alert_reporting_context
          totals := fd.totals
          delta_disapproved := delta_disapproved
          alert_sent := alert_sent
          top_issues := fd.top_issues }
      .ok { snapshot := snapshot, emailCalls := emailCalls }

/-- `run_check` together with its effect on the append-only snapshot store
(modelled as a chronological list; `get_latest_snapshot` returns the most
recently appended snapshot).  On a fetch failure the error propagates and
`save_snapshot` is never reached, so the store is returned unchanged. -/
def run_check_store (s : Settings) (now : Nat) (fetched : Except String FetchData)
    (emailSuccess : Bool) (store : List ProductStatusSnapshot) :
    Except String RunOutcome × List ProductStatusSnapshot :=
  match run_check s now fetched store.getLast? emailSuccess with
  | .error e => (.error e, store)
  | .ok o => (.ok o, store ++ [o.snapshot])

/-- The hard-coded mock totals of `AlertServiceDev.run_check`
(`alert_service_dev.py`, lines 23-31). -/
def devTotals : ProductStatusCounts :=
  { approved := 1000
    pending := 50
    disapproved := 25
    limited := 5
    suspended := 2
    under_review := 10
    processing := 3 }

/-- The hard-coded mock top issues of `AlertServiceDev.run_check`
(`alert_service_dev.py`, lines 34-38). -/
def devTopIssues : List IssueCode :=
  [{ code := "MISSING_GTIN", description := "Product is missing a GTIN", count := 10 },
   { code := "IMAGE_LINK_BROKEN", description := "Product image link is broken", count := 8 },
   { code := "INVALID_PRICE", description := "Product price is invalid", count := 5 }]

/-- `AlertServiceDev.run_check` (`alert_service_dev.py`, lines 17-81):
the delta starts from the mock placeholder `5` and is overwritten with
`current - previous` only when a previous snapshot exists; no email is
sent in the development engine. -/
def run_check_dev (s : Settings) (now : Nat)
    (prev : Option ProductStatusSnapshot) : RunOutcome :=
  let current_totals := devTotals
  let delta_disapproved : Int :=
    match prev with
    | none => 5
    | some p => current_totals.disapproved - p.totals.disapproved
  let alert_sent := should_send_alert s current_totals delta_disapproved
  let snapshot : ProductStatusSnapshot :=
    { timestamp := now
      country := s.alert_country
      reporting_context := s.alert_reporting_context
      totals := current_totals
      delta_disapproved := delta_disapproved
      alert_sent := alert_sent
      top_issues := devTopIssues }
  { snapshot := snapshot, emailCalls := 0 }

/-- The result dictionary of `AlertService._calculate_trend`
(`alert_service.py`, lines 150-173); `period` is present only in the
two-or-more-snapshots branch. -/
structure TrendResult where
  trend : String
  change : Int
  period : Option String
  deriving DecidableEq

/-- `AlertService._calculate_trend` (`alert_service.py`, lines 150-173),
on a window of snapshots in chronological order.
`AlertServiceDev._calculate_trend` has the identical body. -/
def calculate_trend : List ProductStatusSnapshot → TrendResult
  | [] => { trend := "insufficient_data", change := 0, period := none }
  | [_] => { trend := "insufficient_data", change := 0, period := none }
  | first :: b :: rest =>
      let lastSnapshot := (b :: rest).getLastD b
      let change := lastSnapshot.totals.disapproved - first.totals.disapproved
      let trend :=
        if change > 0 then "increasing"
        else if change < 0 then "decreasing"
        else "stable"
      { trend := trend, change := change, period := some "24h" }

/-- The dictionary returned by `AlertService.get_status_summary`
(`alert_service.py`, lines 111-148); fields absent from a branch's
dictionary are `none`. -/
structure StatusSummary where
  status : String
  message : Option String
  last_check : Option Nat
  totals : Option ProductStatusCounts
  delta_disapproved : Option Int
  alert_sent : Option Bool
  trend_24h : Option TrendResult
  checks_24h : Option Nat
  deriving DecidableEq

/-- `AlertService.get_status_summary` (`alert_service.py`, lines 111-148):
the two store reads are modelled by their results, `Except.error` when the
read raises; any raise inside the `try` block lands in the `except` clause,
which returns the error record instead of propagating. -/
def get_status_summary (latest : Except String (Option ProductStatusSnapshot))
    (window : Except String (List ProductStatusSnapshot)) : StatusSummary :=
  match latest with
  | .error e =>
      { status := "error", message := some e, last_check := none, totals := none
        delta_disapproved := none, alert_sent := none, trend_24h := none, checks_24h := none }
  | .ok none =>
      { status := "no_data", message := some "No previous checks found", last_check := none
        totals := none, delta_disapproved := none, alert_sent := none, trend_24h := none
        checks_24h := none }
  | .ok (some latestSnapshot) =>
      match window with
      | .error e =>
          { status := "error", message := some e, last_check := none, totals := none
            delta_disapproved := none, alert_sent := none, trend_24h := none
            checks_24h := none }
      | .ok snapshots24h =>
          { status := if latestSnapshot.alert_sent then "alert" else "healthy"
            message := none
            last_check := some latestSnapshot.timestamp
            totals := some latestSnapshot.totals
            delta_disapproved := some latestSnapshot.delta_disapproved
            alert_sent := some latestSnapshot.alert_sent
            trend_24h := some (calculate_trend snapshots24h)
            checks_24h := some snapshots24h.length }

/-- One entry of the list returned by `AlertService.get_alert_history`
(`alert_service.py`, lines 179-189). -/
structure HistoryEntry where
  timestamp : Nat
  country : String
  reporting_context : String
  totals : ProductStatusCounts
  delta_disapproved : Int
  top_issues : List IssueCode
  deriving DecidableEq

/-- The per-snapshot dictionary construction inside
`AlertService.get_alert_history`. -/
def toHistoryEntry (s : ProductStatusSnapshot) : HistoryEntry :=
  { timestamp := s.timestamp
    country := s.country
    reporting_context := s.reporting_context
    totals := s.totals
    delta_disapproved := s.delta_disapproved
    top_issues := s.top_issues }

/-- The ordering of `order_by("timestamp", direction=DESCENDING)`:
`a` may come before `b` when `b.timestamp ≤ a.timestamp`. -/
def snapOrd (a b : ProductStatusSnapshot) : Prop := b.timestamp ≤ a.timestamp

instance : DecidableRel snapOrd := fun a b => Nat.decLe b.timestamp a.timestamp

instance : IsTotal ProductStatusSnapshot snapOrd :=
  ⟨fun a b => Nat.le_total b.timestamp a.timestamp⟩

instance : IsTrans ProductStatusSnapshot snapOrd :=
  ⟨fun _ _ _ hab hbc => le_trans hbc hab⟩

/-- `FirestoreService.get_alert_history` (`database.py`, lines 115-137):
the Firestore query filters on `alert_sent == True`, orders by timestamp
descending and applies `limit`. -/
def db_get_alert_history (store : List ProductStatusSnapshot) (limit : Nat) :
    List ProductStatusSnapshot :=
  (List.insertionSort snapOrd (store.filter fun s => s.alert_sent)).take limit

/-- `AlertService.get_alert_history` (`alert_service.py`, lines 175-192):
maps the store result to history entries; if the store read raises, the
`except` clause returns the empty list instead of propagating. -/
def service_get_alert_history
    (dbResult : Except String (List ProductStatusSnapshot)) : List HistoryEntry :=
  match dbResult with
  | .error _ => []
  | .ok snaps => snaps.map toHistoryEntry

/-- The `GET /alerts/history` handler (`main.py`, lines 67-76): the
requested limit is capped at 50 before the service call. -/
def endpoint_alert_history (store : List ProductStatusSnapshot)
    (limitReq : Nat) : List HistoryEntry :=
  let limit := if limitReq > 50 then 50 else limitReq
  service_get_alert_history (.ok (db_get_alert_history store limit))

/-- Classification of what one attempt of
`MerchantAPIService._make_request` (`merchant_api.py`, lines 24-80)
observes: an HTTP 200, 429 or 5xx status, a raised `httpx.TimeoutException`,
a raised `GoogleAuthError`, or any other status (the `else` branch, where
`raise_for_status()` raises an `HTTPStatusError` — caught by the generic
`except Exception` handler). -/
inductive RespClass where
  | success
  | rateLimited
  | serverError
  | timeout
  | authError
  | clientError
  deriving DecidableEq

/-- An observable side effect of the retry loop: a `time.sleep(seconds)`
or an `auth_service.refresh_token()` call. -/
inductive ReqEvent where
  | sleep (seconds : Nat)
  | refreshToken
  deriving DecidableEq

/-- How `_make_request` ultimately fails: re-raising the timeout, auth or
status exception of the final attempt, or falling off the loop and raising
the generic failed-after-N-attempts exception. -/
inductive ReqError where
  | timeout
  | authError
  | clientError
  | exhausted
  deriving DecidableEq

/-- The observable behaviour of one `_make_request` call: the outcome
(`Except.ok` carries the index of the succeeding attempt), the ordered side
effects, and the number of attempts consumed. -/
structure ReqResult where
  outcome : Except ReqError Nat
  events : List ReqEvent
  attempts : Nat

/-- The retry loop of `_make_request`, by remaining iterations of
`for attempt in range(max_retries)`; `resp` gives the classification each
attempt observes.  Backoffs: `(2 ** attempt) * 60` on 429, `(2 ** attempt)
* 10` on 5xx (both sleep even on the final attempt and then fall off the
loop), `(2 ** attempt) * 5` on timeout and on the generic handler — which
is what a non-auth 4xx reaches, because `raise_for_status()` raises into
`except Exception`; on auth failure the token is refreshed before the
attempt bound check.  `attempt < max_retries - 1` is `remaining ≠ 0` here. -/
def make_request_go (resp : Nat → RespClass) (max_retries : Nat) :
    Nat → ReqResult
  | 0 => { outcome := .error .exhausted, events := [], attempts := 0 }
  | remaining + 1 =>
      let attempt := max_retries - (remaining + 1)
      match resp attempt with
      | .success => { outcome := .ok attempt, events := [], attempts := 1 }
      | .rateLimited =>
          let r := make_request_go resp max_retries remaining
          { outcome := r.outcome, events := .sleep (2 ^ attempt * 60) :: r.events
            attempts := r.attempts + 1 }
      | .serverError =>
          let r := make_request_go resp max_retries remaining
          { outcome := r.outcome, events := .sleep (2 ^ attempt * 10) :: r.events
            attempts := r.attempts + 1 }
      | .timeout =>
          if remaining = 0 then { outcome := .error .timeout, events := [], attempts := 1 }
          else
            let r := make_request_go resp max_retries remaining
            { outcome := r.outcome, events := .sleep (2 ^ attempt * 5) :: r.events
              attempts := r.attempts + 1 }
      | .authError =>
          if remaining = 0 then
            { outcome := .error .authError, events := [.refreshToken], attempts := 1 }
          else
            let r := make_request_go resp max_retries remaining
            { outcome := r.outcome, events := .refreshToken :: r.events
              attempts := r.attempts + 1 }
      | .clientError =>
          if remaining = 0 then
            { outcome := .error .clientError, events := [], attempts := 1 }
          else
            let r := make_request_go resp max_retries remaining
            { outcome := r.outcome, events := .sleep (2 ^ attempt * 5) :: r.events
              attempts := r.attempts + 1 }

/-- `MerchantAPIService._make_request` (`merchant_api.py`, lines 24-80);
the Python default for `max_retries` is 3. -/
def make_request (resp : Nat → RespClass) (max_retries : Nat) : ReqResult :=
  make_request_go resp max_retries max_retries

/-- A sample snapshot with the given disapproved count and timestamp, used
by concrete witnesses. -/
def mkSnap (d : Int) (t : Nat) : ProductStatusSnapshot :=
  { timestamp := t
    country := "PL"
    reporting_context := "SHOPPING_ADS"
    totals := { zeroCounts with disapproved := d }
    delta_disapproved := 0
    alert_sent := false
    top_issues := [] }

/-- A sample snapshot whose alert flag is set, used by concrete witnesses. -/
def sentSnap (d : Int) (t : Nat) : ProductStatusSnapshot :=
  { mkSnap d t with alert_sent := true }

end GMC

namespace GMC

/-- C1: `_should_send_alert` returns true exactly when the problematic total
(disapproved + suspended + limited) strictly exceeds the absolute threshold or
the disapproved delta is at least the delta threshold; in particular it is
false when the total is at most the absolute threshold and the delta is
strictly below the delta threshold. -/
theorem should_send_alert_iff (s : Settings) (t : ProductStatusCounts) (d : Int) :
    should_send_alert s t d = true ↔
      (s.alert_threshold_abs < t.disapproved + t.suspended + t.limited ∨
        s.alert_threshold_delta ≤ d) := by
  unfold should_send_alert
  split_ifs <;> simp_all

/-- Effect of one `parse_product_status_counts` loop iteration on the
`approved` counter. -/
theorem parseStep_approved (c : ProductStatusCounts) (i : APIItem) :
    (parseStep c i).approved
      = c.approved + (if i.status.toUpper = "APPROVED" then i.count else 0) := by
  dsimp only [parseStep]
  split_ifs with h1 h2 h3 h4 h5 h6 h7 <;> simp_all

/-- Effect of one `parse_product_status_counts` loop iteration on the
`pending` counter. -/
theorem parseStep_pending (c : ProductStatusCounts) (i : APIItem) :
    (parseStep c i).pending
      = c.pending + (if i.status.toUpper = "PENDING" then i.count else 0) := by
  dsimp only [parseStep]
  split_ifs with h1 h2 h3 h4 h5 h6 h7 <;> simp_all

/-- Effect of one `parse_product_status_counts` loop iteration on the
`disapproved` counter. -/
theorem parseStep_disapproved (c : ProductStatusCounts) (i : APIItem) :
    (parseStep c i).disapproved
      = c.disapproved + (if i.status.toUpper = "DISAPPROVED" then i.count else 0) := by
  dsimp only [parseStep]
  split_ifs with h1 h2 h3 h4 h5 h6 h7 <;> simp_all

/-- Effect of one `parse_product_status_counts` loop iteration on the
`limited` counter. -/
theorem parseStep_limited (c : ProductStatusCounts) (i : APIItem) :
    (parseStep c i).limited
      = c.limited + (if i.status.toUpper = "LIMITED" then i.count else 0) := by
  dsimp only [parseStep]
  split_ifs with h1 h2 h3 h4 h5 h6 h7 <;> simp_all

/-- Effect of one `parse_product_status_counts` loop iteration on the
`suspended` counter. -/
theorem parseStep_suspended (c : ProductStatusCounts) (i : APIItem) :
    (parseStep c i).suspended
      = c.suspended + (if i.status.toUpper = "SUSPENDED" then i.count else 0) := by
  dsimp only [parseStep]
  split_ifs with h1 h2 h3 h4 h5 h6 h7 <;> simp_all

/-- Effect of one `parse_product_status_counts` loop iteration on the
`under_review` counter. -/
theorem parseStep_under_review (c : ProductStatusCounts) (i : APIItem) :
    (parseStep c i).under_review
      = c.under_review + (if i.status.toUpper = "UNDER_REVIEW" then i.count else 0) := by
  dsimp only [parseStep]
  split_ifs with h1 h2 h3 h4 h5 h6 h7 <;> simp_all

/-- Effect of one `parse_product_status_counts` loop iteration on the
`processing` counter. -/
theorem parseStep_processing (c : ProductStatusCounts) (i : APIItem) :
    (parseStep c i).processing
      = c.processing + (if i.status.toUpper = "PROCESSING" then i.count else 0) := by
  dsimp only [parseStep]
  split_ifs with h1 h2 h3 h4 h5 h6 h7 <;> simp_all

/-- Unfolding of `sumCountsFor` over a cons cell. -/
theorem sumCountsFor_cons (s : String) (i : APIItem) (items : List APIItem) :
    sumCountsFor s (i :: items)
      = (if i.status.toUpper = s then i.count else 0) + sumCountsFor s items := by
  unfold sumCountsFor
  rw [List.filter_cons]
  by_cases h : i.status.toUpper = s <;> simp [h]

/-- Accumulator generalisation of the `parse_product_status_counts` loop,
field by field. -/
theorem foldl_parseStep (items : List APIItem) :
    ∀ c : ProductStatusCounts,
      (items.foldl parseStep c).approved = c.approved + sumCountsFor "APPROVED" items
      ∧ (items.foldl parseStep c).pending = c.pending + sumCountsFor "PENDING" items
      ∧ (items.foldl parseStep c).disapproved
          = c.disapproved + sumCountsFor "DISAPPROVED" items
      ∧ (items.foldl parseStep c).limited = c.limited + sumCountsFor "LIMITED" items
      ∧ (items.foldl parseStep c).suspended = c.suspended + sumCountsFor "SUSPENDED" items
      ∧ (items.foldl parseStep c).under_review
          = c.under_review + sumCountsFor "UNDER_REVIEW" items
      ∧ (items.foldl parseStep c).processing
          = c.processing + sumCountsFor "PROCESSING" items := by
  induction items with
  | nil => intro c; simp [sumCountsFor]
  | cons i items ih =>
      intro c
      obtain ⟨e1, e2, e3, e4, e5, e6, e7⟩ := ih (parseStep c i)
      rw [List.foldl_cons]
      refine ⟨?_, ?_, ?_, ?_, ?_, ?_, ?_⟩ <;>
        simp only [e1, e2, e3, e4, e5, e6, e7, sumCountsFor_cons, parseStep_approved,
          parseStep_pending, parseStep_disapproved, parseStep_limited, parseStep_suspended,
          parseStep_under_review, parseStep_processing] <;> ring

/-- C6: each field of the parsed `StatusCounts` equals the sum of the counts
of the items whose status matches that field's name case-insensitively;
unrecognized statuses contribute to no field, and the empty report parses to
all-zero counts. -/
theorem parse_product_status_counts_spec (items : List APIItem) :
    parse_product_status_counts items =
        { approved := sumCountsFor "APPROVED" items
          pending := sumCountsFor "PENDING" items
          disapproved := sumCountsFor "DISAPPROVED" items
          limited := sumCountsFor "LIMITED" items
          suspended := sumCountsFor "SUSPENDED" items
          under_review := sumCountsFor "UNDER_REVIEW" items
          processing := sumCountsFor "PROCESSING" items } ∧
      parse_product_status_counts [] = zeroCounts := by
  constructor
  · obtain ⟨e1, e2, e3, e4, e5, e6, e7⟩ := foldl_parseStep items zeroCounts
    unfold parse_product_status_counts
    have hEta : items.foldl parseStep zeroCounts =
        { approved := (items.foldl parseStep zeroCounts).approved
          pending := (items.foldl parseStep zeroCounts).pending
          disapproved := (items.foldl parseStep zeroCounts).disapproved
          limited := (items.foldl parseStep zeroCounts).limited
          suspended := (items.foldl parseStep zeroCounts).suspended
          under_review := (items.foldl parseStep zeroCounts).under_review
          processing := (items.foldl parseStep zeroCounts).processing } := rfl
    rw [hEta, e1, e2, e3, e4, e5, e6, e7]
    simp [zeroCounts]
  · rfl

/-- Accumulator generalisation of the inner detail loop of
`get_top_issue_codes`. -/
theorem inner_detail_foldl_eq (ds : List IssueDetail) :
    ∀ acc : List IssueCode,
      ds.foldl (fun acc d => if goodDetail d then acc ++ [mkIssue d] else acc) acc
        = acc ++ (ds.filter goodDetail).map mkIssue := by
  induction ds with
  | nil => intro acc; simp
  | cons d ds ih =>
      intro acc
      rw [List.foldl_cons]
      by_cases h : goodDetail d <;> simp [h, ih, List.filter_cons]

/-- Accumulator generalisation of the outer item loop of
`get_top_issue_codes`. -/
theorem collect_issues_foldl_eq (items : List APIItem) :
    ∀ acc : List IssueCode,
      items.foldl
          (fun issues item =>
            if negativeStatus item then
              item.issueDetails.foldl
                (fun acc d => if goodDetail d then acc ++ [mkIssue d] else acc) issues
            else issues)
          acc
        = acc ++ collect_issues_spec items := by
  induction items with
  | nil => intro acc; simp [collect_issues_spec]
  | cons i items ih =>
      intro acc
      simp only [List.foldl_cons]
      by_cases h : negativeStatus i
      · rw [if_pos h, inner_detail_foldl_eq, ih]
        simp [collect_issues_spec, List.filter_cons, h, List.append_assoc]
      · rw [if_neg (by simp [h]), ih]
        simp [collect_issues_spec, List.filter_cons, h]

/-- The loop-based issue collection from the source equals the spec-side
filter/flatMap formulation. -/
theorem collect_issues_eq_spec (items : List APIItem) :
    collect_issues items = collect_issues_spec items := by
  have h := collect_issues_foldl_eq items []
  simpa [collect_issues] using h

/-- Inserting into a list commutes with filtering by an exact count value:
the inserted element lands in front of every kept element of equal count,
because `orderedInsert` only walks past strictly larger counts. -/
theorem filter_count_orderedInsert (c : Int) (a : IssueCode) (l : List IssueCode) :
    (List.orderedInsert issueOrd a l).filter (fun x => decide (x.count = c))
      = if a.count = c then a :: l.filter (fun x => decide (x.count = c))
        else l.filter (fun x => decide (x.count = c)) := by
  induction l with
  | nil =>
      by_cases hac : a.count = c <;> simp [List.orderedInsert, hac]
  | cons b l ih =>
      rw [List.orderedInsert]
      by_cases hab : issueOrd a b
      · rw [if_pos hab]
        by_cases hac : a.count = c <;> simp [List.filter_cons, hac]
      · rw [if_neg hab]
        unfold issueOrd at hab
        by_cases hac : a.count = c
        · have hb : ¬ (b.count = c) := by omega
          simp [List.filter_cons, hac, hb, ih]
        · simp [List.filter_cons, hac, ih]

/-- The stable sort preserves, for every count value, the subsequence of
entries carrying that count: ties keep their input order. -/
theorem filter_count_insertionSort (c : Int) (l : List IssueCode) :
    (List.insertionSort issueOrd l).filter (fun x => decide (x.count = c))
      = l.filter (fun x => decide (x.count = c)) := by
  induction l with
  | nil => rfl
  | cons a l ih =>
      rw [List.insertionSort, filter_count_orderedInsert]
      by_cases hac : a.count = c <;> simp [List.filter_cons, hac, ih]

/-- C5: `get_top_issue_codes` returns exactly the qualifying issue-detail
entries of negative-status items (no deduplication), stable-sorted by count
descending (ties kept in input order), truncated to the first `limit`
entries. -/
theorem get_top_issue_codes_spec (items : List APIItem) (limit : Nat) :
    get_top_issue_codes items limit
        = (List.insertionSort issueOrd (collect_issues_spec items)).take limit
      ∧ (List.insertionSort issueOrd (collect_issues_spec items)).Perm
          (collect_issues_spec items)
      ∧ (List.insertionSort issueOrd (collect_issues_spec items)).Pairwise
          (fun a b => b.count ≤ a.count)
      ∧ (∀ c : Int,
          (List.insertionSort issueOrd (collect_issues_spec items)).filter
              (fun x => decide (x.count = c))
            = (collect_issues_spec items).filter (fun x => decide (x.count = c)))
      ∧ (get_top_issue_codes items limit).length ≤ limit := by
  refine ⟨?_, List.perm_insertionSort _ _, ?_, fun c => filter_count_insertionSort c _, ?_⟩
  · rw [get_top_issue_codes, collect_issues_eq_spec]
  · exact List.sorted_insertionSort issueOrd (collect_issues_spec items)
  · simp only [get_top_issue_codes, List.length_take]
    omega

/-- C2: in the production engine the persisted delta is
`current - previous` when a previous snapshot exists and `0` otherwise, but
the development engine persists the mock placeholder `5` — not `0` — when no
previous snapshot exists, diverging from the intended contract. -/
theorem run_check_dev_delta_no_previous :
    (run_check_dev defaultSettings 0 none).snapshot.delta_disapproved = 5
    ∧ (run_check defaultSettings 0
          (.ok { totals := devTotals, top_issues := devTopIssues }) none true).map
          (fun o => o.snapshot.delta_disapproved) = .ok 0
    ∧ (∀ (s : Settings) (now : Nat) (fd : FetchData) (es : Bool)
          (p : ProductStatusSnapshot),
        (run_check s now (.ok fd) (some p) es).map
            (fun o => o.snapshot.delta_disapproved)
          = .ok (fd.totals.disapproved - p.totals.disapproved)
        ∧ (run_check_dev s now (some p)).snapshot.delta_disapproved
            = devTotals.disapproved - p.totals.disapproved) := by
  refine ⟨rfl, rfl, fun s now fd es p => ⟨?_, rfl⟩⟩
  simp [run_check, computeDelta, Except.map]

/-- C3: whenever the decision rule fires on the fetched totals, `run_check`
invokes the Notifier exactly once, persists `alert_sent` equal to the
Notifier's reported success, still constructs and appends the snapshot, and
completes normally. -/
theorem run_check_alert_path (s : Settings) (now : Nat) (fd : FetchData)
    (emailSuccess : Bool) (store : List ProductStatusSnapshot)
    (h : should_send_alert s fd.totals (computeDelta fd.totals store.getLast?) = true) :
    ∃ o : RunOutcome,
      run_check_store s now (.ok fd) emailSuccess store = (.ok o, store ++ [o.snapshot])
      ∧ o.emailCalls = 1
      ∧ o.snapshot.alert_sent = emailSuccess := by
  dsimp only [run_check_store, run_check]
  rw [h]
  cases emailSuccess
  · exact ⟨_, rfl, rfl, rfl⟩
  · exact ⟨_, rfl, rfl, rfl⟩

/-- Witness for C3, at the spec §8 end-to-end example: disapproved = 60
against an absolute threshold of 50, empty store, failing Notifier. -/
theorem run_check_alert_path_witness :
    ∃ o : RunOutcome,
      run_check_store
          { alert_threshold_abs := 50, alert_threshold_delta := 10,
            alert_country := "PL", alert_reporting_context := "SHOPPING_ADS" } 0
          (.ok { totals := { zeroCounts with disapproved := 60 }, top_issues := [] })
          false []
        = (.ok o, [] ++ [o.snapshot])
      ∧ o.emailCalls = 1
      ∧ o.snapshot.alert_sent = false :=
  run_check_alert_path _ 0 _ false [] (by decide)

/-- C4: a plain client-error response (4xx other than 429) does not fail
immediately: the raised `HTTPStatusError` is caught by the generic handler,
which sleeps `5 * 2^attempt` and retries; with every attempt answering a
client error and the default `max_retries = 3`, three attempts are consumed
and two backoff sleeps (5 s and 10 s) occur before the failure is raised. -/
theorem make_request_client_error_behavior :
    make_request (fun _ => RespClass.clientError) 3
      = { outcome := .error .clientError
          events := [.sleep 5, .sleep 10]
          attempts := 3 } := rfl

/-- The first element of a non-empty list together with `getLastD` of its
own head is what `getLast?` returns. -/
theorem getLast?_eq_getLastD_cons {α : Type} (b : α) (l : List α) :
    (b :: l).getLast? = some ((b :: l).getLastD b) := by
  induction l generalizing b with
  | nil => rfl
  | cons c l ih => rw [List.getLast?_cons_cons, ih c]; rfl

/-- Closed form of `_calculate_trend` on a window of length at least two,
phrased through `head?` and `getLast?`. -/
theorem calculate_trend_pair (l : List ProductStatusSnapshot)
    (f lst : ProductStatusSnapshot) (hf : l.head? = some f)
    (hl : l.getLast? = some lst) (h2 : 2 ≤ l.length) :
    calculate_trend l =
      { trend :=
          if 0 < lst.totals.disapproved - f.totals.disapproved then "increasing"
          else if lst.totals.disapproved - f.totals.disapproved < 0 then "decreasing"
          else "stable"
        change := lst.totals.disapproved - f.totals.disapproved
        period := some "24h" } := by
  match l with
  | [] => simp at h2
  | [_] => simp at h2
  | a :: b :: rest =>
      simp only [List.head?_cons, Option.some.injEq] at hf
      rw [List.getLast?_cons_cons, getLast?_eq_getLastD_cons b rest,
        Option.some.injEq] at hl
      subst hf
      subst hl
      rfl

/-- C7: `_calculate_trend` reports `insufficient_data` with change 0 on
windows shorter than two snapshots; otherwise the change is the disapproved
count of the chronologically last snapshot minus that of the first, with the
trend classified by the sign of the change; and the result depends only on
the first and last snapshots of the window. -/
theorem calculate_trend_spec :
    (∀ l : List ProductStatusSnapshot, l.length < 2 →
        calculate_trend l = { trend := "insufficient_data", change := 0, period := none })
    ∧ (∀ (l : List ProductStatusSnapshot) (f lst : ProductStatusSnapshot),
        2 ≤ l.length → l.head? = some f → l.getLast? = some lst →
        calculate_trend l =
          { trend :=
              if 0 < lst.totals.disapproved - f.totals.disapproved then "increasing"
              else if lst.totals.disapproved - f.totals.disapproved < 0 then "decreasing"
              else "stable"
            change := lst.totals.disapproved - f.totals.disapproved
            period := some "24h" })
    ∧ (∀ l₁ l₂ : List ProductStatusSnapshot,
        2 ≤ l₁.length → 2 ≤ l₂.length → l₁.head? = l₂.head? →
        l₁.getLast? = l₂.getLast? → calculate_trend l₁ = calculate_trend l₂) := by
  refine ⟨?_, fun l f lst h2 hf hl => calculate_trend_pair l f lst hf hl h2, ?_⟩
  · intro l h
    match l with
    | [] => rfl
    | [_] => rfl
    | a :: b :: rest =>
        simp only [List.length_cons] at h
        exact absurd h (by omega)
  · intro l₁ l₂ h1 h2 hh hl
    match l₁, l₂ with
    | a₁ :: b₁ :: r₁, a₂ :: b₂ :: r₂ =>
        obtain ⟨lst, hlst⟩ : ∃ lst, (a₁ :: b₁ :: r₁).getLast? = some lst := by
          rw [List.getLast?_cons_cons, getLast?_eq_getLastD_cons b₁ r₁]
          exact ⟨_, rfl⟩
        have hf₂ : (a₂ :: b₂ :: r₂).head? = some a₁ := by
          rw [← hh]; rfl
        have hl₂ : (a₂ :: b₂ :: r₂).getLast? = some lst := by
          rw [← hl]; exact hlst
        rw [calculate_trend_pair (a₁ :: b₁ :: r₁) a₁ lst rfl hlst (by simp),
          calculate_trend_pair (a₂ :: b₂ :: r₂) a₁ lst hf₂ hl₂ (by simp)]
    | [], _ => simp at h1
    | [_], _ => simp at h1
    | _ :: _ :: _, [] => simp at h2
    | _ :: _ :: _, [_] => simp at h2

/-- Witness for C7: concrete windows with disapproved counts 10, 15, 20:
increasing trend with change 10, unchanged when the middle snapshot is
removed, and `insufficient_data` on a single-snapshot window. -/
theorem calculate_trend_spec_witness :
    calculate_trend [mkSnap 10 0, mkSnap 15 1, mkSnap 20 2]
        = { trend := "increasing", change := 10, period := some "24h" }
    ∧ calculate_trend [mkSnap 10 0, mkSnap 20 2]
        = calculate_trend [mkSnap 10 0, mkSnap 15 1, mkSnap 20 2]
    ∧ calculate_trend [mkSnap 10 0]
        = { trend := "insufficient_data", change := 0, period := none } := by
  obtain ⟨h1, h2, h3⟩ := calculate_trend_spec
  refine ⟨?_, ?_, h1 [mkSnap 10 0] (by simp)⟩
  · rw [h2 [mkSnap 10 0, mkSnap 15 1, mkSnap 20 2] (mkSnap 10 0) (mkSnap 20 2)
      (by simp) rfl rfl]
    rfl
  · exact h3 [mkSnap 10 0, mkSnap 20 2] [mkSnap 10 0, mkSnap 15 1, mkSnap 20 2]
      (by simp) (by simp) rfl rfl

/-- C8: when the fetch step fails, `run_check` propagates the error and the
snapshot store is left unchanged: no snapshot is constructed or appended. -/
theorem run_check_fetch_failure (s : Settings) (now : Nat) (e : String)
    (emailSuccess : Bool) (store : List ProductStatusSnapshot) :
    run_check_store s now (.error e) emailSuccess store = (.error e, store)
    ∧ run_check s now (.error e) store.getLast? emailSuccess = .error e :=
  ⟨rfl, rfl⟩

/-- C9: the history endpoint serves `get_alert_history` with the requested
limit capped at 50: the result is the first `min N 50` snapshots of the
store filtered to `alert_sent = true` and sorted most recent first, each
mapped to a history entry; a request with limit 100 is served as limit 50. -/
theorem endpoint_alert_history_spec (store : List ProductStatusSnapshot) (n : Nat) :
    endpoint_alert_history store n
        = ((List.insertionSort snapOrd (store.filter fun s => s.alert_sent)).take
            (min n 50)).map toHistoryEntry
      ∧ (endpoint_alert_history store n).length ≤ min n 50
      ∧ (∀ e ∈ endpoint_alert_history store n,
          ∃ s ∈ store, s.alert_sent = true ∧ e = toHistoryEntry s)
      ∧ List.Pairwise (fun a b => b.timestamp ≤ a.timestamp)
          (endpoint_alert_history store n)
      ∧ endpoint_alert_history store 100 = endpoint_alert_history store 50 := by
  have hmin : (if n > 50 then 50 else n) = min n 50 := by split_ifs <;> omega
  have hun : endpoint_alert_history store n
      = ((List.insertionSort snapOrd (store.filter fun s => s.alert_sent)).take
          (min n 50)).map toHistoryEntry := by
    dsimp only [endpoint_alert_history, service_get_alert_history, db_get_alert_history]
    rw [hmin]
  refine ⟨hun, ?_, ?_, ?_, rfl⟩
  · rw [hun]
    simp only [List.length_map, List.length_take]
    omega
  · intro e he
    rw [hun] at he
    obtain ⟨s, hs, rfl⟩ := List.mem_map.1 he
    have hs₂ : s ∈ List.insertionSort snapOrd (store.filter fun s => s.alert_sent) :=
      List.Sublist.mem hs (List.take_sublist _ _)
    have hs₃ := (List.mem_insertionSort snapOrd).1 hs₂
    obtain ⟨hstore, hsent⟩ := List.mem_filter.1 hs₃
    exact ⟨s, hstore, hsent, rfl⟩
  · rw [hun]
    have hsorted : List.Pairwise snapOrd
        (List.insertionSort snapOrd (store.filter fun s => s.alert_sent)) :=
      List.sorted_insertionSort snapOrd _
    have htake : List.Pairwise snapOrd
        ((List.insertionSort snapOrd (store.filter fun s => s.alert_sent)).take
          (min n 50)) :=
      List.Pairwise.sublist (List.take_sublist _ _) hsorted
    exact List.pairwise_map.2 htake

/-- Witness for C9: a concrete three-snapshot store (two with the alert
flag set), limit 2: the first returned entry comes from an alert-flagged
persisted snapshot, and a limit-100 request equals a limit-50 request. -/
theorem endpoint_alert_history_spec_witness :
    (∃ s ∈ ([sentSnap 1 10, mkSnap 2 20, sentSnap 3 30] : List ProductStatusSnapshot),
        s.alert_sent = true ∧ toHistoryEntry (sentSnap 3 30) = toHistoryEntry s)
    ∧ endpoint_alert_history [sentSnap 1 10, mkSnap 2 20, sentSnap 3 30] 100
        = endpoint_alert_history [sentSnap 1 10, mkSnap 2 20, sentSnap 3 30] 50 := by
  obtain ⟨h1, h2, h3, h4, h5⟩ :=
    endpoint_alert_history_spec [sentSnap 1 10, mkSnap 2 20, sentSnap 3 30] 2
  refine ⟨h3 (toHistoryEntry (sentSnap 3 30)) ?_, h5⟩
  rw [h1]
  decide

/-- C10: neither read path propagates a store failure: a failing snapshot
read makes `get_status_summary` return the error record carrying the
message, and a failing history read makes `get_alert_history` return the
empty list. -/
theorem store_read_errors_swallowed :
    (∀ (e : String) (window : Except String (List ProductStatusSnapshot)),
        get_status_summary (.error e) window
          = { status := "error", message := some e, last_check := none, totals := none
              delta_disapproved := none, alert_sent := none, trend_24h := none
              checks_24h := none })
    ∧ (∀ (e : String) (latestSnapshot : ProductStatusSnapshot),
        get_status_summary (.ok (some latestSnapshot)) (.error e)
          = { status := "error", message := some e, last_check := none, totals := none
              delta_disapproved := none, alert_sent := none, trend_24h := none
              checks_24h := none })
    ∧ (∀ e : String, service_get_alert_history (.error e) = []) :=
  ⟨fun _ _ => rfl, fun _ _ => rfl, fun _ => rfl⟩

end GMC
